import Mathlib

/-!
Verification of the weather-lookup endpoint (Backend/app.py) and the CSV
insight generator (streamlit/app.py).

The Python code is shallowly embedded: request handlers become pure Lean
functions from an explicit request/upstream model to an explicit response
model; Python exceptions become `Except String`; the JSON values exchanged
with the upstream weather provider become an inductive `Json` type with
rational numbers standing for JSON numerals (the endpoint only passes the
temperature through, it never computes with it).
-/

namespace Backend

/-- JSON values as handled by `flask.jsonify` / `response.json()`.
Numbers are modelled as rationals; the endpoint never computes with them. -/
inductive Json where
  | null
  | bool (b : Bool)
  | num (q : ℚ)
  | str (s : String)
  | arr (xs : List Json)
  | obj (fields : List (String × Json))

/-- A Flask HTTP response: status code plus JSON body.
`jsonify(x)` alone is status 200; `jsonify(x), n` is status `n`. -/
structure HttpResponse where
  status : Nat
  body : Json

/-- The observable outcome of one call of `get_weather`: the HTTP response
returned to the client, and whether an upstream HTTP request was issued
(`requests.get` on line 25 was reached). -/
structure Result where
  response : HttpResponse
  upstreamCalled : Bool

/-- Behaviour of the upstream weather API for this request:
either `requests.get` itself raises (network failure), or it yields a
response with a status code and a body; `Except.ok j` is a body that
`response.json()` parses to `j`, `Except.error e` a body on which
`response.json()` raises with text `e`. -/
inductive Upstream where
  | raises (msg : String)
  | responds (status : Nat) (body : Except String Json)

/-- Python truthiness of `request.args.get("city")` as tested by
`if not city:` on line 17 - `None` and the empty string are falsy. -/
def cityTruthy : Option String → Bool
  | none => false
  | some s => if s = "" then false else true

/-- Python `str.capitalize()`: first character uppercased, all remaining
characters lowercased. -/
def pyCapitalize (s : String) : String :=
  match s.data with
  | [] => ""
  | c :: rest => String.mk (c.toUpper :: rest.map Char.toLower)

/-- `d[k]` on a parsed JSON value: a key lookup that raises `KeyError` when
the key is absent and `TypeError` when the value is not an object. -/
def lookupField : List (String × Json) → String → Except String Json
  | [], k => Except.error ("KeyError: " ++ k)
  | (k', v) :: rest, k => if k' = k then Except.ok v else lookupField rest k

/-- Subscripting a JSON value with a string key (`data["name"]` etc.). -/
def jsonGet : Json → String → Except String Json
  | Json.obj fields, k => lookupField fields k
  | _, k => Except.error ("TypeError: string subscript " ++ k)

/-- Subscripting a JSON value with an integer index (`data["weather"][0]`). -/
def jsonIndex : Json → Nat → Except String Json
  | Json.arr xs, i =>
    match xs.get? i with
    | some v => Except.ok v
    | none => Except.error "IndexError: list index out of range"
  | _, _ => Except.error "TypeError: integer subscript"

/-- Building `weather_info` (lines 31-35): the three field accesses in
source order; `.capitalize()` additionally requires the description to be a
string (otherwise Python raises `AttributeError`). -/
def extractInfo (data : Json) : Except String Json :=
  match jsonGet data "name" with
  | Except.error e => Except.error e
  | Except.ok nameVal =>
    match jsonGet data "main" with
    | Except.error e => Except.error e
    | Except.ok mainVal =>
      match jsonGet mainVal "temp" with
      | Except.error e => Except.error e
      | Except.ok tempVal =>
        match jsonGet data "weather" with
        | Except.error e => Except.error e
        | Except.ok weatherVal =>
          match jsonIndex weatherVal 0 with
          | Except.error e => Except.error e
          | Except.ok entry0 =>
            match jsonGet entry0 "description" with
            | Except.error e => Except.error e
            | Except.ok descVal =>
              match descVal with
              | Json.str d =>
                Except.ok (Json.obj
                  [("city", nameVal),
                   ("temperature", tempVal),
                   ("description", Json.str (pyCapitalize d))])
              | _ => Except.error "AttributeError: capitalize"

/-- The `try:` block of `get_weather` (lines 19-37). Note the source order:
`response.json()` (line 26) runs BEFORE the status check (line 28), so an
unparseable body raises even for non-200 statuses. -/
def tryBlock (up : Upstream) : Except String HttpResponse :=
  match up with
  | Upstream.raises msg => Except.error msg
  | Upstream.responds status body =>
    match body with
    | Except.error e => Except.error e
    | Except.ok data =>
      if status ≠ 200 then
        Except.ok ⟨404, Json.obj [("error", Json.str "City not found")]⟩
      else
        match extractInfo data with
        | Except.error e => Except.error e
        | Except.ok info => Except.ok ⟨200, info⟩

/-- The body returned when no (truthy) city parameter was supplied. -/
def requiredBody : Json :=
  Json.obj [("error", Json.str "City parameter is required")]

/-- The `get_weather` handler (lines 15-40). -/
def get_weather (city : Option String) (up : Upstream) : Result :=
  if cityTruthy city then
    match tryBlock up with
    | Except.ok r => ⟨r, true⟩
    | Except.error e =>
      ⟨⟨500, Json.obj [("error", Json.str "Server error"), ("details", Json.str e)]⟩, true⟩
  else
    ⟨⟨200, requiredBody⟩, false⟩

end Backend

namespace Backend

/-- C1 counterexample: an upstream response with status 404 and a body that
`response.json()` cannot parse makes `get_weather` return HTTP 500 (the
generic server error), not HTTP 404 as the claim demands - `.json()` on
line 26 runs before the status check on line 28. -/
theorem get_weather_non200_unparseable_counterexample :
    get_weather (some "London")
        (Upstream.responds 404 (Except.error "Expecting value: line 1 column 1")) =
      ⟨⟨500, Json.obj [("error", Json.str "Server error"),
                       ("details", Json.str "Expecting value: line 1 column 1")]⟩, true⟩ ∧
    (get_weather (some "London")
        (Upstream.responds 404 (Except.error "Expecting value: line 1 column 1"))).response.status ≠ 404 := by
  constructor
  · rfl
  · decide

/-- C1 (amended): for every request with a truthy city and every upstream
response whose status is not 200 and whose body parses as JSON, the
endpoint returns HTTP 404 with body {"error": "City not found"} (and the
upstream call was made). -/
theorem get_weather_non200_json_404 (c : String) (hc : c ≠ "") (s : Nat) (hs : s ≠ 200)
    (j : Json) :
    get_weather (some c) (Upstream.responds s (Except.ok j)) =
      ⟨⟨404, Json.obj [("error", Json.str "City not found")]⟩, true⟩ := by
  simp [get_weather, cityTruthy, hc, tryBlock, hs]

/-- Witness for C1 (amended) at city "Paris", upstream status 500, body null. -/
theorem get_weather_non200_json_404_witness :
    get_weather (some "Paris") (Upstream.responds 500 (Except.ok Json.null)) =
      ⟨⟨404, Json.obj [("error", Json.str "City not found")]⟩, true⟩ :=
  get_weather_non200_json_404 "Paris" (by decide) 500 (by decide) Json.null

/-- C2: when no city parameter is supplied, `get_weather` returns the body
{"error": "City parameter is required"} with HTTP status 200 (plain
`jsonify` with no status tuple), and no upstream call is made - whatever
the upstream would have done. -/
theorem get_weather_missing_city (up : Upstream) :
    get_weather none up = ⟨⟨200, requiredBody⟩, false⟩ := rfl

/-- Witness for C2 at a concrete upstream behaviour. -/
theorem get_weather_missing_city_witness :
    get_weather none (Upstream.responds 200 (Except.ok Json.null)) =
      ⟨⟨200, requiredBody⟩, false⟩ :=
  get_weather_missing_city (Upstream.responds 200 (Except.ok Json.null))

/-- C9: a city parameter supplied as the empty string is treated exactly
like a missing parameter (the check is Python truthiness): the "required"
error body with HTTP 200 and no upstream call. -/
theorem get_weather_empty_city (up : Upstream) :
    get_weather (some "") up = ⟨⟨200, requiredBody⟩, false⟩ := rfl

/-- Witness for C9 at a concrete upstream behaviour. -/
theorem get_weather_empty_city_witness :
    get_weather (some "") (Upstream.raises "ConnectionError") =
      ⟨⟨200, requiredBody⟩, false⟩ :=
  get_weather_empty_city (Upstream.raises "ConnectionError")

/-- C3: for every upstream 200 response whose parsed body yields `name`,
`main.temp` and a first weather entry with a string `description`, the
endpoint returns a flat 200 object with `city` = name, `temperature` =
main.temp, and `description` the Python-capitalized description. -/
theorem get_weather_success (c : String) (hc : c ≠ "")
    (body nameVal mainVal tempVal weatherVal entry0 : Json) (d : String)
    (hn : jsonGet body "name" = Except.ok nameVal)
    (hm : jsonGet body "main" = Except.ok mainVal)
    (ht : jsonGet mainVal "temp" = Except.ok tempVal)
    (hw : jsonGet body "weather" = Except.ok weatherVal)
    (h0 : jsonIndex weatherVal 0 = Except.ok entry0)
    (hd : jsonGet entry0 "description" = Except.ok (Json.str d)) :
    get_weather (some c) (Upstream.responds 200 (Except.ok body)) =
      ⟨⟨200, Json.obj
        [("city", nameVal),
         ("temperature", tempVal),
         ("description", Json.str (pyCapitalize d))]⟩, true⟩ := by
  simp [get_weather, cityTruthy, hc, tryBlock, extractInfo, hn, hm, ht, hw, h0, hd]

/-- Witness for C3: the spec's concrete example - name "London", temp 15.5,
weather [{description: "clear sky"}] yields
{city: "London", temperature: 15.5, description: "Clear sky"}. -/
theorem get_weather_success_witness :
    get_weather (some "London")
        (Upstream.responds 200 (Except.ok (Json.obj
          [("name", Json.str "London"),
           ("main", Json.obj [("temp", Json.num (15.5 : ℚ))]),
           ("weather", Json.arr [Json.obj [("description", Json.str "clear sky")]])]))) =
      ⟨⟨200, Json.obj
        [("city", Json.str "London"),
         ("temperature", Json.num (15.5 : ℚ)),
         ("description", Json.str "Clear sky")]⟩, true⟩ := by
  have h := get_weather_success "London" (by decide)
    (Json.obj
      [("name", Json.str "London"),
       ("main", Json.obj [("temp", Json.num (15.5 : ℚ))]),
       ("weather", Json.arr [Json.obj [("description", Json.str "clear sky")]])])
    (Json.str "London") (Json.obj [("temp", Json.num (15.5 : ℚ))]) (Json.num (15.5 : ℚ))
    (Json.arr [Json.obj [("description", Json.str "clear sky")]])
    (Json.obj [("description", Json.str "clear sky")]) "clear sky"
    rfl rfl rfl rfl rfl rfl
  exact h

/-- C4: for every request with a truthy city, whenever the try-block raises
(network failure, unparseable body, missing field, non-string description),
`get_weather` returns HTTP 500 with error "Server error" and the exception
text in `details`. -/
theorem get_weather_exception (c : String) (hc : c ≠ "") (up : Upstream) (msg : String)
    (h : tryBlock up = Except.error msg) :
    get_weather (some c) up =
      ⟨⟨500, Json.obj [("error", Json.str "Server error"),
                       ("details", Json.str msg)]⟩, true⟩ := by
  simp [get_weather, cityTruthy, hc, h]

/-- Witness for C4: a network failure while issuing the upstream request. -/
theorem get_weather_exception_witness :
    get_weather (some "London") (Upstream.raises "ConnectionError: refused") =
      ⟨⟨500, Json.obj [("error", Json.str "Server error"),
                       ("details", Json.str "ConnectionError: refused")]⟩, true⟩ :=
  get_weather_exception "London" (by decide) (Upstream.raises "ConnectionError: refused")
    "ConnectionError: refused" rfl

end Backend

namespace Insights

/-- Pandas dtypes relevant to the insight generator's column
classification (lines 105-108 of streamlit/app.py). -/
inductive Dtype where
  | numeric
  | object
  | category
  | datetime
deriving DecidableEq

/-- One column of the loaded table: its name, dtype, and cells; a `none`
cell is a missing value (NaN). Cell payloads are their string form - the
analyses modelled here only count, compare and parse them. -/
structure Column where
  name : String
  dtype : Dtype
  cells : List (Option String)
deriving DecidableEq

/-- The loaded table: an ordered list of named columns. -/
abbrev DataFrame := List Column

/-- `df.select_dtypes(include=np.number).columns.tolist()` (line 105). -/
def numeric_cols (df : DataFrame) : List String :=
  (df.filter fun c => decide (c.dtype = Dtype.numeric)).map Column.name

/-- `df.select_dtypes(include=['object', 'category']).columns.tolist()`
(line 106). -/
def categorical_cols (df : DataFrame) : List String :=
  (df.filter fun c => decide (c.dtype = Dtype.object ∨ c.dtype = Dtype.category)).map
    Column.name

/-- The columns of `df.select_dtypes(include=['object'])` (line 111). -/
def objectColumns (df : DataFrame) : List Column :=
  df.filter fun c => decide (c.dtype = Dtype.object)

/-- `df.select_dtypes(include=['datetime', 'datetime64[ns]']).columns`
(line 108): columns already of a native date/time dtype. -/
def nativeDatetimeCols (df : DataFrame) : List String :=
  (df.filter fun c => decide (c.dtype = Dtype.datetime)).map Column.name

/-- Whether `pd.to_datetime` accepts one cell, given the library's
per-value date parser `parses` (an oracle: pandas' parsing rules are
outside this repository). A missing value becomes NaT without raising. -/
def cellParses (parses : String → Bool) : Option String → Bool
  | none => true
  | some s => parses s

/-- `pd.to_datetime(df[col], errors='raise')` succeeds on a column exactly
when every cell parses (line 113): all-or-nothing per column. -/
def columnParses (parses : String → Bool) (c : Column) : Bool :=
  c.cells.all (cellParses parses)

/-- `datetime_cols` (lines 108-116): the native date/time columns; when
there are none, every object-typed column whose cells all parse as dates
is appended instead. -/
def datetime_cols (parses : String → Bool) (df : DataFrame) : List String :=
  let native := nativeDatetimeCols df
  if native.isEmpty then
    ((objectColumns df).filter (columnParses parses)).map Column.name
  else native

/-- The non-missing values of a column, as consumed by `value_counts`
(which drops NaN by default). -/
def colValues (c : Column) : List String :=
  c.cells.filterMap id

/-- Comparison used to order `value_counts` output: descending by count. -/
def countGE (a b : String × Nat) : Prop := b.2 ≤ a.2

instance : DecidableRel countGE := fun a b => inferInstanceAs (Decidable (b.2 ≤ a.2))

instance : IsTotal (String × Nat) countGE := ⟨fun a b => Nat.le_total b.2 a.2⟩

instance : IsTrans (String × Nat) countGE := ⟨fun _ _ _ hab hbc => Nat.le_trans hbc hab⟩

/-- `df[col].value_counts()` (line 158): each distinct value paired with
its number of occurrences, sorted descending by count (stably). -/
def value_counts (xs : List String) : List (String × Nat) :=
  List.insertionSort countGE (xs.dedup.map fun v => (v, xs.count v))

/-- `max_categories_to_show = 25` (line 157). -/
def max_categories_to_show : Nat := 25

/-- What the frequency analysis displays: the (value, count) pairs fed to
the bar chart, and `some (total, shown)` when the truncation warning of
line 160 fires (it reports the total number of categories and how many
are displayed). -/
structure FreqResult where
  shown : List (String × Nat)
  warning : Option (Nat × Nat)
deriving DecidableEq

/-- Frequency analysis of a selected categorical column (lines 157-161):
when there are more than 25 distinct values, warn and keep the 25 with the
largest counts (`nlargest(25)` on the descending-sorted counts keeps its
first 25 entries). -/
def freqAnalysis (xs : List String) : FreqResult :=
  let counts := value_counts xs
  if max_categories_to_show < counts.length then
    ⟨counts.take max_categories_to_show, some (counts.length, max_categories_to_show)⟩
  else
    ⟨counts, none⟩

/-- `df[numeric_cols]` (line 188): the table restricted to its numeric
columns, over which `corr()` is computed. -/
def selectNumeric (df : DataFrame) : List Column :=
  df.filter fun c => decide (c.dtype = Dtype.numeric)

/-- What the correlation section renders (lines 186-209): either an
annotated heatmap of a correlation matrix (of type `A`, produced by the
library's `corr()`), or an informational message and no chart. -/
inductive CorrOutput (A : Type) where
  | heatmap (m : A)
  | infoMsg (msg : String)

/-- Whether the correlation section rendered a heatmap. -/
def isHeatmap {A : Type} : CorrOutput A → Bool
  | CorrOutput.heatmap _ => true
  | CorrOutput.infoMsg _ => false

/-- The correlation section (lines 186-209). `corrFn` stands for pandas
`DataFrame.corr()` - the pairwise Pearson correlation matrix, computed by
the library on the numeric-restricted table. -/
def corrAnalysis {A : Type} (corrFn : List Column → A) (df : DataFrame) : CorrOutput A :=
  if 2 ≤ (numeric_cols df).length then
    CorrOutput.heatmap (corrFn (selectNumeric df))
  else if (numeric_cols df).length = 1 then
    CorrOutput.infoMsg
      "Only one numerical column found. Correlation analysis requires at least two numerical columns."
  else
    CorrOutput.infoMsg "No numerical columns found for correlation analysis."

end Insights

namespace Insights

/-- In a table with pairwise distinct column names, a name determines the
column. -/
theorem column_eq_of_name_eq {df : DataFrame} (hnd : (df.map Column.name).Nodup)
    {c c' : Column} (hc : c ∈ df) (hc' : c' ∈ df) (h : c.name = c'.name) : c = c' :=
  List.inj_on_of_nodup_map hnd hc hc' h

theorem value_counts_length (xs : List String) :
    (value_counts xs).length = xs.dedup.length := by
  rw [value_counts, List.length_insertionSort, List.length_map]

theorem value_counts_sorted (xs : List String) :
    List.Sorted countGE (value_counts xs) :=
  List.sorted_insertionSort countGE _

theorem mem_value_counts (xs : List String) (v : String) (n : Nat) :
    (v, n) ∈ value_counts xs ↔ v ∈ xs.dedup ∧ n = xs.count v := by
  rw [value_counts, List.mem_insertionSort, List.mem_map]
  constructor
  · rintro ⟨a, ha, heq⟩
    simp only [Prod.mk.injEq] at heq
    obtain ⟨rfl, rfl⟩ := heq
    exact ⟨ha, rfl⟩
  · rintro ⟨hv, rfl⟩
    exact ⟨v, hv, rfl⟩

/-- In a list sorted descending by count, every entry kept by `take n`
has a count at least that of every entry beyond it. -/
theorem sorted_take_ge_drop {l : List (String × Nat)} (h : List.Sorted countGE l)
    (n : Nat) : ∀ p ∈ l.take n, ∀ q ∈ l.drop n, q.2 ≤ p.2 := by
  have h' : List.Pairwise countGE (l.take n ++ l.drop n) := by
    rw [List.take_append_drop]; exact h
  exact fun p hp q hq => (List.pairwise_append.mp h').2.2 p hp q hq

/-- C5: datetime inference (lines 108-116). When some column already has a
native date/time dtype, the datetime set is exactly those native columns
(no parsing is attempted). Otherwise, an object-typed column lands in the
datetime set if and only if every one of its cells parses as a date, and
either way it stays in the categorical set. -/
theorem datetime_inference (parses : String → Bool) (df : DataFrame) :
    (nativeDatetimeCols df ≠ [] → datetime_cols parses df = nativeDatetimeCols df) ∧
    (nativeDatetimeCols df = [] → (df.map Column.name).Nodup →
      ∀ c ∈ df, c.dtype = Dtype.object →
        ((c.name ∈ datetime_cols parses df ↔ c.cells.all (cellParses parses) = true) ∧
          c.name ∈ categorical_cols df)) := by
  constructor
  · intro hne
    rw [datetime_cols]
    simp only [List.isEmpty_iff]
    rw [if_neg hne]
  · intro hemp hnd c hc hobj
    have hdt : datetime_cols parses df =
        ((objectColumns df).filter (columnParses parses)).map Column.name := by
      rw [datetime_cols]
      simp only [List.isEmpty_iff]
      rw [if_pos hemp]
    constructor
    · rw [hdt]
      constructor
      · intro hmem
        obtain ⟨c', hc', hname⟩ := List.mem_map.mp hmem
        obtain ⟨hc'o, hp'⟩ := List.mem_filter.mp hc'
        have hc'df : c' ∈ df := (List.mem_filter.mp hc'o).1
        have : c' = c := column_eq_of_name_eq hnd hc'df hc hname
        subst this
        exact hp'
      · intro hall
        apply List.mem_map.mpr
        refine ⟨c, List.mem_filter.mpr ⟨?_, hall⟩, rfl⟩
        exact List.mem_filter.mpr ⟨hc, by simp [hobj]⟩
    · apply List.mem_map.mpr
      refine ⟨c, List.mem_filter.mpr ⟨hc, ?_⟩, rfl⟩
      simp [hobj]

/-- Witness for C5: with a parser rejecting exactly "oops", in a table with
no native datetime column, the object column whose cells all parse is in
(iff holds with a true right side) and the object column with one bad cell
is characterized by the same iff with a false right side; both remain
categorical. -/
theorem datetime_inference_witness :
    ((Column.mk "good" Dtype.object [some "2020-01-01", some "2020-02-02"]).name ∈
        datetime_cols (fun s => decide (s ≠ "oops"))
          [Column.mk "good" Dtype.object [some "2020-01-01", some "2020-02-02"],
           Column.mk "bad" Dtype.object [some "2020-01-01", some "oops"],
           Column.mk "n" Dtype.numeric [some "1"]] ↔
      (Column.mk "good" Dtype.object [some "2020-01-01", some "2020-02-02"]).cells.all
        (cellParses fun s => decide (s ≠ "oops")) = true) ∧
    (Column.mk "good" Dtype.object [some "2020-01-01", some "2020-02-02"]).name ∈
      categorical_cols
        [Column.mk "good" Dtype.object [some "2020-01-01", some "2020-02-02"],
         Column.mk "bad" Dtype.object [some "2020-01-01", some "oops"],
         Column.mk "n" Dtype.numeric [some "1"]] :=
  (datetime_inference (fun s => decide (s ≠ "oops"))
      [Column.mk "good" Dtype.object [some "2020-01-01", some "2020-02-02"],
       Column.mk "bad" Dtype.object [some "2020-01-01", some "oops"],
       Column.mk "n" Dtype.numeric [some "1"]]).2
    (by decide) (by decide)
    (Column.mk "good" Dtype.object [some "2020-01-01", some "2020-02-02"])
    (by decide) rfl

end Insights

namespace Insights

/-- A column sample with 30 distinct values. -/
def thirtyDistinct : List String :=
  ["a", "b", "c", "d", "e", "f", "g", "h", "i", "j",
   "k", "l", "m", "n", "o", "p", "q", "r", "s", "t",
   "u", "v", "w", "x", "y", "z", "A", "B", "C", "D"]

/-- A column sample with exactly 25 distinct values. -/
def twentyFiveDistinct : List String :=
  ["a", "b", "c", "d", "e", "f", "g", "h", "i", "j",
   "k", "l", "m", "n", "o", "p", "q", "r", "s", "t",
   "u", "v", "w", "x", "y"]

/-- C6: frequency analysis of a column with more than 25 distinct values
(lines 157-161): exactly 25 entries are displayed; they are entries of the
value-counts list (each distinct value paired with its occurrence count),
in descending order of count; every displayed count is at least every
omitted count; and the warning reports the total number of distinct
values and that 25 are shown. -/
theorem freq_truncation (xs : List String) (h : 25 < xs.dedup.length) :
    (freqAnalysis xs).shown.length = 25 ∧
    (freqAnalysis xs).shown.Sublist (value_counts xs) ∧
    List.Sorted countGE (freqAnalysis xs).shown ∧
    (∀ p ∈ (freqAnalysis xs).shown, ∀ q ∈ value_counts xs,
      q ∉ (freqAnalysis xs).shown → q.2 ≤ p.2) ∧
    (∀ v n, ((v, n) ∈ value_counts xs ↔ v ∈ xs.dedup ∧ n = xs.count v)) ∧
    (freqAnalysis xs).warning = some (xs.dedup.length, 25) := by
  have hlen : max_categories_to_show < (value_counts xs).length := by
    rw [max_categories_to_show, value_counts_length]; exact h
  have hfa : freqAnalysis xs =
      ⟨(value_counts xs).take max_categories_to_show,
       some ((value_counts xs).length, max_categories_to_show)⟩ := by
    rw [freqAnalysis]
    simp only [if_pos hlen]
  refine ⟨?_, ?_, ?_, ?_, fun v n => mem_value_counts xs v n, ?_⟩
  · rw [hfa]
    simp only [max_categories_to_show, List.length_take]
    rw [max_categories_to_show] at hlen
    omega
  · rw [hfa]
    exact List.take_sublist _ _
  · rw [hfa]
    exact List.Pairwise.sublist (List.take_sublist _ _) (value_counts_sorted xs)
  · rw [hfa]
    intro p hp q hq hq'
    have hsplit : q ∈ (value_counts xs).take max_categories_to_show ++
        (value_counts xs).drop max_categories_to_show := by
      rw [List.take_append_drop]; exact hq
    rcases List.mem_append.mp hsplit with hqt | hqd
    · exact absurd hqt hq'
    · exact sorted_take_ge_drop (value_counts_sorted xs) max_categories_to_show p hp q hqd
  · rw [hfa, value_counts_length]
    rfl

/-- Witness for C6: a column with 30 distinct values shows 25 entries and
warns "30 total, 25 shown". -/
theorem freq_truncation_witness :
    (freqAnalysis thirtyDistinct).shown.length = 25 ∧
    (freqAnalysis thirtyDistinct).warning = some (30, 25) := by
  have h := freq_truncation thirtyDistinct (by decide)
  refine ⟨h.1, ?_⟩
  rw [h.2.2.2.2.2]
  decide

/-- C10: the 25-category cap is strict (line 159 uses `>`): with at most
25 distinct values everything is shown and no warning is emitted, and the
truncation warning fires exactly when there are strictly more than 25
distinct values. -/
theorem freq_cap_strict (xs : List String) :
    (xs.dedup.length ≤ 25 →
      (freqAnalysis xs).shown = value_counts xs ∧ (freqAnalysis xs).warning = none) ∧
    ((freqAnalysis xs).warning.isSome = true ↔ 25 < xs.dedup.length) := by
  by_cases h : 25 < xs.dedup.length
  · have hlen : max_categories_to_show < (value_counts xs).length := by
      rw [max_categories_to_show, value_counts_length]; exact h
    have hfa : freqAnalysis xs =
        ⟨(value_counts xs).take max_categories_to_show,
         some ((value_counts xs).length, max_categories_to_show)⟩ := by
      rw [freqAnalysis]
      simp only [if_pos hlen]
    constructor
    · intro hle; omega
    · rw [hfa]
      simp [h]
  · have hlen : ¬ max_categories_to_show < (value_counts xs).length := by
      rw [max_categories_to_show, value_counts_length]; exact h
    have hfa : freqAnalysis xs = ⟨value_counts xs, none⟩ := by
      rw [freqAnalysis]
      simp only [if_neg hlen]
    constructor
    · intro _; exact ⟨by rw [hfa], by rw [hfa]⟩
    · rw [hfa]
      simpa using h
  
/-- Witness for C10: a column with exactly 25 distinct values shows all of
them and emits no warning. -/
theorem freq_cap_strict_witness :
    (freqAnalysis twentyFiveDistinct).shown = value_counts twentyFiveDistinct ∧
    (freqAnalysis twentyFiveDistinct).warning = none :=
  (freq_cap_strict twentyFiveDistinct).1 (by decide)

end Insights

namespace Insights

/-- C7: the correlation section (lines 186-209). With fewer than two
numeric columns only an informational message is produced (no heatmap);
with at least two, the heatmap of the library correlation matrix computed
over exactly the numeric-restricted table is rendered; and a heatmap is
rendered precisely when there are at least two numeric columns. -/
theorem corr_gate {A : Type} (corrFn : List Column → A) (df : DataFrame) :
    ((numeric_cols df).length < 2 →
      ∃ msg, corrAnalysis corrFn df = CorrOutput.infoMsg msg) ∧
    (2 ≤ (numeric_cols df).length →
      corrAnalysis corrFn df = CorrOutput.heatmap (corrFn (selectNumeric df))) ∧
    (isHeatmap (corrAnalysis corrFn df) = true ↔ 2 ≤ (numeric_cols df).length) := by
  by_cases h : 2 ≤ (numeric_cols df).length
  · refine ⟨fun hlt => absurd h (by omega), fun _ => by rw [corrAnalysis, if_pos h], ?_⟩
    rw [corrAnalysis, if_pos h]
    simp [isHeatmap, h]
  · refine ⟨fun _ => ?_, fun h2 => absurd h2 h, ?_⟩
    · by_cases h1 : (numeric_cols df).length = 1
      · exact ⟨_, by rw [corrAnalysis, if_neg h, if_pos h1]⟩
      · exact ⟨_, by rw [corrAnalysis, if_neg h, if_neg h1]⟩
    · by_cases h1 : (numeric_cols df).length = 1
      · rw [corrAnalysis, if_neg h, if_pos h1]
        simp [isHeatmap, h]
      · rw [corrAnalysis, if_neg h, if_neg h1]
        simp [isHeatmap, h]

/-- Witness for C7: a table whose only columns are one numeric and one
object column yields an informational message and no heatmap. -/
theorem corr_gate_witness :
    ∃ msg, corrAnalysis (fun cols => cols.length)
        [Column.mk "n" Dtype.numeric [some "1"],
         Column.mk "c" Dtype.object [some "x"]] =
      CorrOutput.infoMsg msg :=
  (corr_gate (fun cols => cols.length)
      [Column.mk "n" Dtype.numeric [some "1"],
       Column.mk "c" Dtype.object [some "x"]]).1 (by decide)

/-- The widget selections refining the analyses: the numeric column picked
for the distribution histogram, the categorical column picked for the
frequency chart, the datetime column picked for the trend chart, and the
resampling granularity radio (one of "D", "W", "M", "Q", "Y"). -/
structure Selections where
  numCol : Option String
  catCol : Option String
  dtCol : Option String
  freq : String
deriving DecidableEq

/-- The library functions the analyses delegate to, fixed for a session:
`parses` is pandas' per-value date parsing, `parseCell` the normalized
datetime a cell converts to, `resample` the bucketing of a datetime column
into per-bucket row counts at a given granularity. -/
structure Oracles where
  parses : String → Bool
  parseCell : Option String → Option String
  resample : List (Option String) → String → List (String × Nat)

/-- What the time-series section renders (lines 213-259). -/
inductive TsOutput where
  | chart (series : List (String × Nat))
  | emptyWarning (col : String)
  | errorMsg (col : String) (e : String)
deriving DecidableEq

/-- `df[name]`: the column of that name, if any. -/
def findCol (df : DataFrame) (n : String) : Option Column :=
  df.find? fun c => decide (c.name = n)

/-- The missing-value table (lines 56-57): per-column null counts,
filtered to the columns with at least one missing cell. -/
def missingCounts (df : DataFrame) : List (String × Nat) :=
  (df.map fun c => (c.name, c.cells.countP Option.isNone)).filter fun p =>
    decide (0 < p.2)

/-- The time-series insight for a selected column (lines 221-257).
`df[col] = pd.to_datetime(df[col])` mutates the frame: on success the
selected column's dtype becomes datetime and its cells their parsed form;
on a parse failure the assignment never happens and the `except` branch
reports an error. The mutated frame is returned alongside the output. -/
def tsAnalysis (orc : Oracles) (df : DataFrame) (colName : String)
    (freq : String) : TsOutput × DataFrame :=
  match findCol df colName with
  | none => (TsOutput.errorMsg colName "KeyError", df)
  | some c =>
    if columnParses orc.parses c then
      let c' : Column := ⟨c.name, Dtype.datetime, c.cells.map orc.parseCell⟩
      let df' := df.map fun d => if d.name = colName then c' else d
      let series := orc.resample c'.cells freq
      if series.isEmpty then (TsOutput.emptyWarning colName, df')
      else (TsOutput.chart series, df')
    else (TsOutput.errorMsg colName "ValueError", df)

/-- Everything one script run renders, as functions of the loaded table
and the widget selections. -/
structure RunOutputs (A : Type) where
  missing : List (String × Nat)
  histogram : Option (List (Option String))
  freq : Option FreqResult
  corr : CorrOutput A
  datetimeSet : List String
  ts : Option TsOutput

/-- One top-to-bottom run of the script body on the loaded table (lines
90-264): missing-value analysis, distribution of the selected numeric
column, frequency of the selected categorical column, correlation section,
datetime inference, and - when a datetime column exists and is selected -
the time-series insight, which may mutate the frame it was given. -/
def runScript {A : Type} (orc : Oracles) (corrFn : List Column → A)
    (sel : Selections) (df : DataFrame) : RunOutputs A × DataFrame :=
  let missing := missingCounts df
  let hist := match sel.numCol with
    | none => none
    | some n => (findCol df n).map Column.cells
  let fr := match sel.catCol with
    | none => none
    | some n => (findCol df n).map fun c => freqAnalysis (colValues c)
  let co := corrAnalysis corrFn df
  let dts := datetime_cols orc.parses df
  match dts with
  | [] => (⟨missing, hist, fr, co, dts, none⟩, df)
  | _ :: _ =>
    match sel.dtCol with
    | none => (⟨missing, hist, fr, co, dts, none⟩, df)
    | some n =>
      let out := tsAnalysis orc df n sel.freq
      (⟨missing, hist, fr, co, dts, some out.1⟩, out.2)

/-- The page session: `st.cache_data` holds the table loaded from the
uploaded file. -/
structure Session where
  cache : DataFrame

/-- One streamlit rerun: the cached loader hands the script a fresh copy
of the loaded table, the script runs, and its (possibly mutated) working
copy is discarded when the run ends - the cache itself is never
written back to. -/
def sessionRun {A : Type} (orc : Oracles) (corrFn : List Column → A)
    (s : Session) (sel : Selections) : RunOutputs A × Session :=
  let workingCopy := s.cache
  let out := runScript orc corrFn sel workingCopy
  (out.1, s)

/-- C8: with the dataset unchanged and the same widget selections, a rerun
renders identical output - each analysis is a deterministic function of
the cached table and the selections, and a run leaves no state behind
(the session after a run is the session before it, even though the
time-series step mutates its working copy of the table). -/
theorem rerun_deterministic {A : Type} (orc : Oracles) (corrFn : List Column → A)
    (s : Session) (sel : Selections) :
    (sessionRun orc corrFn ((sessionRun orc corrFn s sel).2) sel).1 =
      (sessionRun orc corrFn s sel).1 ∧
    (sessionRun orc corrFn s sel).2 = s :=
  ⟨rfl, rfl⟩

/-- Witness for C8 at a concrete session, oracle set and selection. -/
theorem rerun_deterministic_witness :
    (sessionRun
        ⟨fun _ => true, id, fun cs _ => [("2020", cs.length)]⟩
        (fun cols => cols.length)
        ((sessionRun
            ⟨fun _ => true, id, fun cs _ => [("2020", cs.length)]⟩
            (fun cols => cols.length)
            ⟨[Column.mk "d" Dtype.object [some "2020-01-01"]]⟩
            ⟨none, none, some "d", "M"⟩).2)
        ⟨none, none, some "d", "M"⟩).1 =
      (sessionRun
          ⟨fun _ => true, id, fun cs _ => [("2020", cs.length)]⟩
          (fun cols => cols.length)
          ⟨[Column.mk "d" Dtype.object [some "2020-01-01"]]⟩
          ⟨none, none, some "d", "M"⟩).1 ∧
    (sessionRun
        ⟨fun _ => true, id, fun cs _ => [("2020", cs.length)]⟩
        (fun cols => cols.length)
        ⟨[Column.mk "d" Dtype.object [some "2020-01-01"]]⟩
        ⟨none, none, some "d", "M"⟩).2 =
      ⟨[Column.mk "d" Dtype.object [some "2020-01-01"]]⟩ :=
  rerun_deterministic
    ⟨fun _ => true, id, fun cs _ => [("2020", cs.length)]⟩
    (fun cols => cols.length)
    ⟨[Column.mk "d" Dtype.object [some "2020-01-01"]]⟩
    ⟨none, none, some "d", "M"⟩

end Insights
